import Mathlib

/-!
Verification development for the bria-fibo-studio backend.

The TypeScript sources are shallowly embedded: pure transformation code
(profile naming, style attribute extraction, style-DNA handling, request
shaping) is translated to Lean functions over an explicit model of JSON
values; network effects (axios calls, JSON.parse of remote payloads) are
modelled as oracle parameters supplying the outcomes of the external
service, and the retry / polling loops are modelled as state-passing
recursions that also record their invocation counts and sleep delays.
-/

namespace BriaFibo

/-! ### A model of JavaScript JSON values

Values produced by JSON.parse.  Numbers are modelled as integers (no claim
in scope depends on non-integral numerics).  Object fields are an ordered
association list, as produced by a JSON parse (keys unique). -/

inductive Json where
  | null : Json
  | bool (b : Bool) : Json
  | num (n : Int) : Json
  | str (s : String) : Json
  | arr (elems : List Json) : Json
  | obj (fields : List (String × Json)) : Json

/-- JavaScript truthiness of a JSON value (undefined is modelled as null). -/
def Json.truthy : Json → Bool
  | .null => false
  | .bool b => b
  | .num n => n != 0
  | .str s => s != ""
  | .arr _ => true
  | .obj _ => true

/-- Whether the value is a string (JS typeof x === the string type). -/
def Json.isStr : Json → Bool
  | .str _ => true
  | _ => false

/-- JS property access `v.key` where the receiver is known not to be
null/undefined (returns null for a missing key, mirroring undefined). -/
def Json.getD : Json → String → Json
  | .obj fields, key =>
    match fields.find? (fun p => p.1 == key) with
    | some p => p.2
    | none => .null
  | _, _ => .null

/-- JS property access `v.key` that raises a TypeError when the receiver is
null (undefined is also modelled by null). -/
def Json.getE : Json → String → Except Unit Json
  | .null, _ => .error ()
  | v, key => .ok (v.getD key)

/-- JS logical-or `a || b` on JSON values: the first operand if truthy,
otherwise the second. -/
def jsOr (a b : Json) : Json := if a.truthy then a else b

/-- JS logical-or over possibly-absent values (absent = undefined = falsy). -/
def jsOrOpt (a b : Option Json) : Json := jsOr (a.getD .null) (b.getD .null)

/-- Keep an optional field only when its value is truthy (JS `if (o.f)`). -/
def jsTruthyOpt : Option Json → Option Json
  | some v => if v.truthy then some v else none
  | none => none

mutual

/-- JS string coercion String(v) (also used by template literals):
null prints as null, arrays join their elements with commas, and plain
objects print as the object placeholder. -/
def Json.toDisplay : Json → String
  | .null => "null"
  | .bool true => "true"
  | .bool false => "false"
  | .num n => toString n
  | .str s => s
  | .arr xs => String.intercalate "," (Json.displayListElems xs)
  | .obj _ => "[object Object]"

/-- Elements of an array under Array.prototype.join: null elements become
the empty string, others are string-coerced. -/
def Json.displayListElems : List Json → List String
  | [] => []
  | .null :: xs => "" :: Json.displayListElems xs
  | x :: xs => x.toDisplay :: Json.displayListElems xs

end

/-- Array.prototype.join with an arbitrary separator (null elements become
the empty string). -/
def jsArrayJoin (xs : List Json) (sep : String) : String :=
  String.intercalate sep (Json.displayListElems xs)

mutual

/-- JSON.stringify of a JSON value (string escaping is not modelled; all
strings in scope are escape-free). -/
def Json.stringify : Json → String
  | .null => "null"
  | .bool true => "true"
  | .bool false => "false"
  | .num n => toString n
  | .str s => "\"" ++ s ++ "\""
  | .arr xs => "[" ++ String.intercalate "," (Json.stringifyListElems xs) ++ "]"
  | .obj fs => "\x7b" ++ String.intercalate "," (Json.stringifyFieldsElems fs) ++ "\x7d"

/-- Stringified elements of a JSON array. -/
def Json.stringifyListElems : List Json → List String
  | [] => []
  | x :: xs => x.stringify :: Json.stringifyListElems xs

/-- Stringified fields of a JSON object. -/
def Json.stringifyFieldsElems : List (String × Json) → List String
  | [] => []
  | (k, v) :: fs => ("\"" ++ k ++ "\":" ++ v.stringify) :: Json.stringifyFieldsElems fs

end

/-! ### JS string primitives used by the sources -/

/-- Whether the first character list occurs at the head of the second. -/
def strHasPre : List Char → List Char → Bool
  | [], _ => true
  | _ :: _, [] => false
  | a :: as, b :: bs => a == b && strHasPre as bs

/-- JS String.prototype.includes: substring occurrence test. -/
def strFindSub : List Char → List Char → Bool
  | needle, [] => strHasPre needle []
  | needle, c :: rest => strHasPre needle (c :: rest) || strFindSub needle rest

/-- JS s.includes(sub). -/
def jsIncludes (s sub : String) : Bool := strFindSub sub.data s.data

/-- JS s.split(a single-space string): split on every space character,
producing possibly-empty chunks. -/
def jsSplitWords (s : String) : List String := (s.data.splitOn ' ').map String.mk

/-- JS words.join(a single-space string). -/
def jsJoinWords (ws : List String) : String := String.mk ([' '].intercalate (ws.map String.data))

/-- JS w.charAt(0).toUpperCase() + w.slice(1). -/
def jsCapitalizeWord (w : String) : String :=
  match w.data with
  | [] => ""
  | c :: cs => String.mk (c.toUpper :: cs)

/-- JS s.toLowerCase() (character-wise lower-casing). -/
def jsToLower (s : String) : String := String.mk (s.data.map Char.toLower)

/-! ### Backoff retrier (src/backend/src/utils/retry.ts)

The wrapped operation is modelled as a function from the invocation index
to its outcome; the trace records the produced value or error, how many
times the operation was invoked, and the sleep durations performed between
invocations. -/

/-- RetryOptions with the defaults of retry.ts. -/
structure RetryOptions where
  maxRetries : Nat := 3
  initialDelay : Nat := 1000
  maxDelay : Nat := 10000
  backoffMultiplier : Nat := 2

/-- Observable outcome of a retryWithBackoff run. -/
structure RetryTrace (ε α : Type) where
  result : Except ε α
  invocations : Nat
  delays : List Nat

/-- The retry loop of retryWithBackoff: attempt the operation; on failure,
if attempts remain, sleep the current delay and retry with
delay = min(delay * multiplier, maxDelay); once attempts are exhausted,
re-raise the last error. -/
def retryGo (op : Nat → Except ε α) (mult maxDelay : Nat) :
    Nat → Nat → Nat → RetryTrace ε α
  | attempt, delay, remaining =>
    match op attempt with
    | .ok v => ⟨.ok v, 1, []⟩
    | .error e =>
      match remaining with
      | 0 => ⟨.error e, 1, []⟩
      | r + 1 =>
        let t := retryGo op mult maxDelay (attempt + 1) (min (delay * mult) maxDelay) r
        ⟨t.result, t.invocations + 1, delay :: t.delays⟩

/-- retryWithBackoff of retry.ts over an operation oracle. -/
def retryWithBackoff (op : Nat → Except ε α) (opts : RetryOptions := {}) : RetryTrace ε α :=
  retryGo op opts.backoffMultiplier opts.maxDelay 0 opts.initialDelay opts.maxRetries

/-! ### Polling loops of the external API client (src/unnamed/part_000, BriaApiClient)

Each GET of a status endpoint is modelled by an oracle from the poll index
to its outcome: either a reply carrying the response JSON body, or a
failure of the GET itself (network or HTTP error raised by axios).  Each
loop returns its result together with the list of sleep durations it
performed. -/

/-- Outcome of one status GET as seen inside the polling try block. -/
inductive PollOutcome where
  | reply (data : Json)
  | failure

/-- Status test of the style-extraction polling loop for the terminal
success state (the comparison in the source is with the upper-case word). -/
def styleExtractDone (status : Json) : Bool :=
  match status with
  | .str s => s == "COMPLETED"
  | _ => false

/-- Status test of the style-extraction polling loop for the terminal
failure state. -/
def styleExtractFail (status : Json) : Bool :=
  match status with
  | .str s => s == "ERROR"
  | _ => false

/-- Status test of the image-generation polling loop for the terminal
success state: the source compares against both the upper-case and the
lower-case word. -/
def imageGenDone (status : Json) : Bool :=
  match status with
  | .str s => s == "COMPLETED" || s == "completed"
  | _ => false

/-- Status test of the image-generation polling loop for the terminal
failure state: upper-case ERROR or lower-case failed. -/
def imageGenFail (status : Json) : Bool :=
  match status with
  | .str s => s == "ERROR" || s == "failed"
  | _ => false

/-- Status test of the preview polling loop for the terminal success
state (lower-case). -/
def previewDone (status : Json) : Bool :=
  match status with
  | .str s => s == "completed"
  | _ => false

/-- Status test of the preview polling loop for the terminal failure
state (lower-case). -/
def previewFail (status : Json) : Bool :=
  match status with
  | .str s => s == "failed"
  | _ => false

/-- Result shape returned by style extraction (StyleExtractResponse). -/
structure StyleExtractResult where
  seed : Json
  structured_prompt : Json

/-- Decoding of a successful style-extraction status body:
result = data.result or data; seed defaults to 0; structured_prompt
defaults to the stringified result. -/
def styleResultOfData (data : Json) : StyleExtractResult :=
  let result := jsOr (data.getD "result") data
  { seed := jsOr (result.getD "seed") (.num 0)
    structured_prompt := jsOr (result.getD "structured_prompt") (.str result.stringify) }

/-- One pass of pollStyleExtractStatus over the remaining poll budget.
The body runs inside a try/catch whose catch swallows every error except
on the final attempt, where it raises the timeout message; in particular
the error thrown on an ERROR status is caught by that same catch. -/
def pollStyleExtractGo (poll : Nat → PollOutcome) :
    Nat → Nat → Except String StyleExtractResult × List Nat
  | _, 0 => (.error "Polling timeout for style extraction", [])
  | i, r + 1 =>
    match poll i with
    | .failure => pollStyleExtractGo poll (i + 1) r
    | .reply data =>
      match data.getE "status" with
      | .error _ => pollStyleExtractGo poll (i + 1) r
      | .ok status =>
        if styleExtractDone status then (.ok (styleResultOfData data), [])
        else if styleExtractFail status then pollStyleExtractGo poll (i + 1) r
        else
          let t := pollStyleExtractGo poll (i + 1) r
          (t.1, 2000 :: t.2)

/-- pollStyleExtractStatus: 30 polls, 2000 ms between non-terminal polls. -/
def pollStyleExtractStatus (poll : Nat → PollOutcome) :
    Except String StyleExtractResult × List Nat :=
  pollStyleExtractGo poll 0 30

/-- Result shape of the preview polling loop (PreviewResponse). -/
structure PreviewResult where
  status : String
  images : Json := .null
  error : Option Json := none

/-- One pass of pollPreviewStatus: a completed status returns the images,
a failed status returns a failed response object (not an exception), any
other status sleeps and polls again; GET failures are swallowed except on
the final attempt, which raises the timeout message. -/
def pollPreviewGo (poll : Nat → PollOutcome) :
    Nat → Nat → Except String PreviewResult × List Nat
  | _, 0 => (.error "Polling timeout", [])
  | i, r + 1 =>
    match poll i with
    | .failure => pollPreviewGo poll (i + 1) r
    | .reply data =>
      match data.getE "status" with
      | .error _ => pollPreviewGo poll (i + 1) r
      | .ok status =>
        if previewDone status then
          (.ok { status := "completed", images := jsOr (data.getD "images") (.arr []) }, [])
        else if previewFail status then
          (.ok { status := "failed"
                 error := some (jsOr (data.getD "error") (.str "Generation failed")) }, [])
        else
          let t := pollPreviewGo poll (i + 1) r
          (t.1, 2000 :: t.2)

/-- pollPreviewStatus: 30 polls, 2000 ms interval. -/
def pollPreviewStatus (poll : Nat → PollOutcome) :
    Except String PreviewResult × List Nat :=
  pollPreviewGo poll 0 30

/-- Outcome of one status GET inside pollImageGeneration, whose catch
distinguishes axios errors that carry an HTTP response status (re-raised)
from other failures (swallowed except on the final attempt). -/
inductive GenPollOutcome where
  | reply (data : Json)
  | httpFailure (message : String)
  | transportFailure

/-- Result shape of image generation (ImageGenerateResponse). -/
structure ImageGenResult where
  image_url : Json
  seed : Json
  request_id : Option String := none

/-- JS xs?.[0]: first element of an array value, undefined otherwise. -/
def jsIndex0 : Json → Json
  | .arr (x :: _) => x
  | _ => .null

/-- Decoding of a completed image-generation status body. -/
def imageGenResultOfData (data : Json) (requestId : String) : ImageGenResult :=
  let result := jsOr (data.getD "result") data
  { image_url := jsOr (result.getD "image_url") (jsIndex0 (result.getD "images"))
    seed := jsOr (result.getD "seed") (.num 0)
    request_id := some requestId }

/-- One pass of pollImageGeneration: terminal success on COMPLETED or
completed, terminal failure status raises (but is swallowed by the catch
unless it is the final attempt), an axios error carrying a response status
is re-raised, other failures are swallowed. -/
def pollImageGenerationGo (poll : Nat → GenPollOutcome) (requestId : String) :
    Nat → Nat → Except String ImageGenResult × List Nat
  | _, 0 => (.error "Polling timeout for image generation", [])
  | i, r + 1 =>
    match poll i with
    | .transportFailure => pollImageGenerationGo poll requestId (i + 1) r
    | .httpFailure msg =>
      match r with
      | 0 => (.error "Polling timeout for image generation", [])
      | _ => (.error msg, [])
    | .reply data =>
      match data.getE "status" with
      | .error _ => pollImageGenerationGo poll requestId (i + 1) r
      | .ok status =>
        if imageGenDone status then (.ok (imageGenResultOfData data requestId), [])
        else if imageGenFail status then pollImageGenerationGo poll requestId (i + 1) r
        else
          let t := pollImageGenerationGo poll requestId (i + 1) r
          (t.1, 2000 :: t.2)

/-- pollImageGeneration: 60 polls, 2000 ms interval. -/
def pollImageGeneration (poll : Nat → GenPollOutcome) (requestId : String) :
    Except String ImageGenResult × List Nat :=
  pollImageGenerationGo poll requestId 0 60

/-! ### extractStyle of the external API client

The outbound POST (and, when the service answers 202, the subsequent
polling session) is supplied by an oracle indexed by the retry attempt.
Each image buffer is modelled by its byte length: the only inspection the
source performs on the binary content is an emptiness check before
base64-encoding it. -/

/-- Outcome of the POST to the structured-prompt endpoint for one attempt. -/
inductive ExtractPostOutcome where
  | reply (status : Nat) (data : Json) (polls : Nat → PollOutcome)
  | netFailure (message : String)
  | httpFailure (status : Option Nat) (data : Json) (message : String)
  | otherFailure (message : String)

/-- Index of the first empty image buffer, if any. -/
def firstEmptyIdx (images : List Nat) : Option Nat :=
  images.findIdx? (fun size => size == 0)

/-- Normalized message for an HTTP error response in extractStyle:
data.message, else data.error, else the raw body (stringified when not a
string), else the transport message. -/
def extractHttpErrorMessage (status : Option Nat) (data : Json) (message : String) : String :=
  let fromData :=
    jsOr (data.getD "message")
      (jsOr (data.getD "error")
        (if data.isStr then data else .str data.stringify))
  let errorMessage := if fromData.truthy then fromData.toDisplay else message
  let statusText := match status with
    | some code => toString code
    | none => "undefined"
  "Bria API error (" ++ statusText ++ "): " ++ errorMessage

/-- One attempt of extractStyle (the function handed to retryWithBackoff):
validates the buffers, rejects any batch size other than one, then posts
and either decodes the synchronous body or polls the async status URL.
The second component counts the outbound POSTs of the attempt. -/
def extractStyleAttempt (images : List Nat) (post : ExtractPostOutcome) :
    Except String StyleExtractResult × Nat :=
  match firstEmptyIdx images with
  | some i => (.error ("Image " ++ toString (i + 1) ++ " is empty or invalid"), 0)
  | none =>
    if images.length != 1 then
      (.error "Bria API v2 supports only 1 image per request. Please send images one at a time.", 0)
    else
      match post with
      | .reply status data polls =>
        if status == 202 && (data.getD "status_url").truthy then
          ((pollStyleExtractStatus polls).1, 1)
        else
          (.ok (styleResultOfData data), 1)
      | .netFailure message =>
        (.error ("Cannot connect to Bria API: " ++ message ++
          ". Please check your internet connection and API URL configuration."), 1)
      | .httpFailure status data message =>
        (.error (extractHttpErrorMessage status data message), 1)
      | .otherFailure message => (.error message, 1)

/-- extractStyle: the attempt above wrapped by the backoff retrier, the
POST outcome of attempt k given by the oracle at k. -/
def extractStyle (images : List Nat) (posts : Nat → ExtractPostOutcome)
    (opts : RetryOptions := {}) : RetryTrace String StyleExtractResult :=
  retryWithBackoff (fun k => (extractStyleAttempt images (posts k)).1) opts

/-! ### Profile name generator (src/backend/src/utils/profileNameGenerator.ts)

JSON.parse is an external runtime primitive; its outcome on a given input
string is supplied by an oracle jparse (none models a parse exception).
Category extraction can also raise inside the source try block, because
several categories call toLowerCase on the raw attribute value: a truthy
non-string value there raises a TypeError, caught by the same catch that
handles parse errors.  That is modelled by the inner Except Unit pass. -/

/-- Keyword vocabulary for the lighting category. -/
def lightingVocab : List String :=
  ["warm", "cold", "soft", "harsh", "natural", "artificial", "golden", "blue",
   "dramatic", "even", "high contrast", "low key", "bright", "dim"]

/-- Keyword vocabulary for the mood category. -/
def moodVocab : List String :=
  ["serene", "dramatic", "peaceful", "energetic", "calm", "vibrant", "moody",
   "cheerful", "melancholic", "mysterious", "playful", "elegant"]

/-- Keyword vocabulary for the atmosphere category. -/
def atmosphereVocab : List String :=
  ["crisp", "hazy", "foggy", "clear", "ethereal", "intimate", "spacious",
   "cozy", "urban", "rural"]

/-- Keyword vocabulary for the time-of-day category. -/
def timeVocab : List String :=
  ["morning", "afternoon", "evening", "night", "dawn", "dusk", "twilight",
   "golden hour", "blue hour", "midday"]

/-- Keyword vocabulary for the weather category. -/
def weatherVocab : List String :=
  ["sunny", "cloudy", "rainy", "snowy", "foggy", "overcast", "clear", "stormy"]

/-- Keyword vocabulary for the location category. -/
def locationVocab : List String :=
  ["urban", "city", "street", "nature", "indoor", "outdoor", "studio",
   "landscape", "portrait", "architectural"]

/-- Keyword vocabulary for the technical category. -/
def technicalVocab : List String :=
  ["shallow depth", "bokeh", "wide angle", "telephoto", "macro",
   "long exposure", "sharp"]

/-- extractKeywords: the keywords occurring case-insensitively as
substrings of the text, in vocabulary order. -/
def extractKeywords (text : String) (keywords : List String) : List String :=
  keywords.filter (fun keyword => jsIncludes (jsToLower text) (jsToLower keyword))

/-- extractKeywords applied to a raw JSON value: the source calls
toLowerCase on it, which raises a TypeError unless the value is a string. -/
def extractKeywordsJS (value : Json) (keywords : List String) : Except Unit (List String) :=
  match value with
  | .str s => .ok (extractKeywords s keywords)
  | _ => .error ()

/-- Color-name and hex-digit fragments classified as cool. -/
def coolColors : List String :=
  ["blue", "cyan", "teal", "turquoise", "#0", "#1", "#2", "#3", "#4", "#5"]

/-- Color-name and hex-digit fragments classified as warm. -/
def warmColors : List String :=
  ["red", "orange", "yellow", "gold", "#f", "#e", "#d", "#c"]

/-- extractColorDescriptors: arrays are classified cool/warm/balanced by
fragment matching on their string-coerced lower-cased entries plus blue,
golden and neutral detection; strings are matched against a small
descriptor vocabulary; other values yield nothing. -/
def extractColorDescriptors (colorData : Json) : List String :=
  match colorData with
  | .arr elems =>
    let colors := elems.map (fun c => jsToLower c.toDisplay)
    let hasCool := colors.any (fun c => coolColors.any (fun cool => jsIncludes c cool))
    let hasWarm := colors.any (fun c => warmColors.any (fun warm => jsIncludes c warm))
    (if hasCool && !hasWarm then ["cool"] else []) ++
    (if hasWarm && !hasCool then ["warm"] else []) ++
    (if hasCool && hasWarm then ["balanced"] else []) ++
    (if colors.any (fun c => jsIncludes c "blue") then ["blue"] else []) ++
    (if colors.any (fun c => jsIncludes c "gold" || jsIncludes c "yellow") then ["golden"] else []) ++
    (if colors.any (fun c => jsIncludes c "gray" || jsIncludes c "grey") then ["neutral"] else [])
  | .str s =>
    extractKeywords s ["cool", "warm", "vibrant", "muted", "pastel", "bold", "neutral"]
  | _ => []

/-- StyleAttributes: one keyword list per category. -/
structure StyleAttributes where
  lighting : List String := []
  colors : List String := []
  mood : List String := []
  atmosphere : List String := []
  time : List String := []
  weather : List String := []
  location : List String := []
  technical : List String := []

/-- Category extraction over a successfully parsed value, in source order;
an error denotes a TypeError raised on a truthy non-string attribute. -/
def extractStyleAttributesCore (parsed : Json) : Except Unit StyleAttributes := do
  let lightingVal ← parsed.getE "lighting"
  let lighting :=
    if lightingVal.truthy then
      extractKeywords
        (match lightingVal with
         | .str s => s
         | v => v.stringify) lightingVocab
    else []
  let colorsVal ← parsed.getE "colors"
  let colorPaletteVal ← parsed.getE "color_palette"
  let paletteVal ← parsed.getE "palette"
  let colorData := jsOr colorsVal (jsOr colorPaletteVal paletteVal)
  let colors := if colorData.truthy then extractColorDescriptors colorData else []
  let moodVal ← parsed.getE "mood"
  let vibeVal ← parsed.getE "vibe"
  let moodData := jsOr moodVal vibeVal
  let mood ← if moodData.truthy then extractKeywordsJS moodData moodVocab else pure []
  let atmosphereVal ← parsed.getE "atmosphere"
  let atmosphere ←
    if atmosphereVal.truthy then extractKeywordsJS atmosphereVal atmosphereVocab else pure []
  let timeOfDayVal ← parsed.getE "time_of_day"
  let timeVal ← parsed.getE "time"
  let timeData := jsOr timeOfDayVal timeVal
  let time ← if timeData.truthy then extractKeywordsJS timeData timeVocab else pure []
  let weatherVal ← parsed.getE "weather"
  let weather ← if weatherVal.truthy then extractKeywordsJS weatherVal weatherVocab else pure []
  let environmentVal ← parsed.getE "environment"
  let locationVal ← parsed.getE "location"
  let settingVal ← parsed.getE "setting"
  let locationData := jsOr environmentVal (jsOr locationVal settingVal)
  let location ←
    if locationData.truthy then extractKeywordsJS locationData locationVocab else pure []
  let technicalVal ← parsed.getE "technical"
  let photographyVal ← parsed.getE "photography"
  let cameraVal ← parsed.getE "camera"
  let techData := jsOr technicalVal (jsOr photographyVal cameraVal)
  let technical :=
    if techData.truthy then
      extractKeywords
        (match techData with
         | .str s => s
         | v => v.stringify) technicalVocab
    else []
  pure { lighting, colors, mood, atmosphere, time, weather, location, technical }

/-- extractStyleAttributes: parse failures and TypeErrors inside the try
block both degrade to the empty attribute object. -/
def extractStyleAttributes (parseOutcome : Option Json) : StyleAttributes :=
  match parseOutcome with
  | none => {}
  | some parsed =>
    match extractStyleAttributesCore parsed with
    | .ok attrs => attrs
    | .error _ => {}

/-- Per-category concatenation used while aggregating attributes. -/
def mergeAttrs (a b : StyleAttributes) : StyleAttributes :=
  { lighting := a.lighting ++ b.lighting
    colors := a.colors ++ b.colors
    mood := a.mood ++ b.mood
    atmosphere := a.atmosphere ++ b.atmosphere
    time := a.time ++ b.time
    weather := a.weather ++ b.weather
    location := a.location ++ b.location
    technical := a.technical ++ b.technical }

/-- Per-category deduplication keeping first occurrences (Set insertion
order). -/
def dedupAttrs (a : StyleAttributes) : StyleAttributes :=
  { lighting := a.lighting.eraseDups
    colors := a.colors.eraseDups
    mood := a.mood.eraseDups
    atmosphere := a.atmosphere.eraseDups
    time := a.time.eraseDups
    weather := a.weather.eraseDups
    location := a.location.eraseDups
    technical := a.technical.eraseDups }

/-- aggregateAttributes: extract per prompt, concatenate per category,
then deduplicate. -/
def aggregateAttributes (jparse : String → Option Json) (prompts : List String) :
    StyleAttributes :=
  dedupAttrs
    (prompts.foldl (fun acc p => mergeAttrs acc (extractStyleAttributes (jparse p))) {})

/-- Category flattening in the fixed priority order of getTopAttributes. -/
def priorityFlatten (a : StyleAttributes) : List String :=
  a.time ++ a.weather ++ a.location ++ a.lighting ++ a.mood ++ a.colors ++
    a.atmosphere ++ a.technical

/-- Stable insertion into a list sorted by strictly descending count:
existing entries stay ahead only when strictly greater, so equal counts
preserve encounter order, as the stable JS sort does. -/
def insertByCountDesc (a : String × Nat) : List (String × Nat) → List (String × Nat)
  | [] => [a]
  | b :: bs => if b.2 > a.2 then b :: insertByCountDesc a bs else a :: b :: bs

/-- Stable sort by descending count, modelling the stable JS array sort
with the comparator on entry counts. -/
def sortByCountDesc : List (String × Nat) → List (String × Nat)
  | [] => []
  | a :: as => insertByCountDesc a (sortByCountDesc as)

/-- getTopAttributes: flatten by priority, count frequencies in first
encounter order, sort stably by descending frequency and keep the first
limit values. -/
def getTopAttributes (attributes : StyleAttributes) (limit : Nat := 3) : List String :=
  let allValues := priorityFlatten attributes
  let entries := allValues.eraseDups.map (fun v => (v, allValues.count v))
  ((sortByCountDesc entries).take limit).map (fun e => e.1)

/-- capitalizeWords: split on spaces, upper-case each first character,
rejoin. -/
def capitalizeWords (text : String) : String :=
  jsJoinWords ((jsSplitWords text).map jsCapitalizeWord)

/-- The trimming loop of generateProfileName with an explicit iteration
budget: drop trailing words while more than two words remain and the
joined name is over the limit.  Each iteration shortens the list by one,
so a budget of the initial length is never exhausted before the loop
condition fails. -/
def trimWordsGo (maxLength : Nat) : Nat → List String → List String
  | 0, ws => ws
  | fuel + 1, ws =>
    if 2 < ws.length ∧ maxLength < (jsJoinWords ws).length then
      trimWordsGo maxLength fuel ws.dropLast
    else ws

/-- The trimming loop of generateProfileName. -/
def trimWords (maxLength : Nat) (ws : List String) : List String :=
  trimWordsGo maxLength ws.length ws

/-- generateProfileName: aggregate attributes over all prompts, keep the
top four, title-case-join them and trim trailing words down to the
two-word floor when over the length limit, with the three literal
fallbacks of the source. -/
def generateProfileName (jparse : String → Option Json) (structuredPrompts : List String)
    (maxLength : Nat := 40) : String :=
  if structuredPrompts.length = 0 then "Untitled Style"
  else
    let attributes := aggregateAttributes jparse structuredPrompts
    let topAttributes := getTopAttributes attributes 4
    if topAttributes.length = 0 then "Custom Style Profile"
    else
      let name := capitalizeWords (jsJoinWords topAttributes)
      let name :=
        if maxLength < name.length then jsJoinWords (trimWords maxLength (jsSplitWords name))
        else name
      if name = "" then "Style Profile" else name

/-! ### Style DNA (styleDnaParser.ts bundled in src/backend/src/utils)

StyleDNA objects hold whichever style fields were copied from the decoded
structured prompt; the original field retains either the full decoded
object or, after a decode failure, the raw input text. -/

/-- The original reference kept on a StyleDNA. -/
inductive OriginalRef where
  | parsed (j : Json)
  | rawText (s : String)

/-- Technical photography sub-object of a StyleDNA. -/
structure TechnicalDNA where
  depth_of_field : Option Json := none
  focus : Option Json := none
  lens : Option Json := none
  aperture : Option Json := none
  iso : Option Json := none
  shutter_speed : Option Json := none

/-- StyleDNA: the style-only view of a structured prompt. -/
structure StyleDNA where
  lighting : Option Json := none
  color_palette : Option Json := none
  colors : Option Json := none
  mood : Option Json := none
  atmosphere : Option Json := none
  tone : Option Json := none
  technical : Option TechnicalDNA := none
  artistic_style : Option Json := none
  photographic_style : Option Json := none
  rendering_style : Option Json := none
  time_of_day : Option Json := none
  season : Option Json := none
  weather : Option Json := none
  original : Option OriginalRef := none

/-- Contribution of one optional field to Object.keys(styleDNA).length. -/
def optKey (o : Option α) : Nat := if o.isSome then 1 else 0

/-- Number of keys present on the StyleDNA object. -/
def StyleDNA.keyCount (d : StyleDNA) : Nat :=
  optKey d.lighting + optKey d.color_palette + optKey d.colors + optKey d.mood +
    optKey d.atmosphere + optKey d.tone + optKey d.technical + optKey d.artistic_style +
    optKey d.photographic_style + optKey d.rendering_style + optKey d.time_of_day +
    optKey d.season + optKey d.weather + optKey d.original

/-- Technical sub-object copying of parseStructuredPrompt; the source
reaches it only for a truthy (hence non-null) technical/camera/photography
value, so plain property access applies. -/
def parseTechnicalDNA (techData : Json) : TechnicalDNA :=
  let t : TechnicalDNA := {}
  let tv := techData.getD "depth_of_field"
  let t := if tv.truthy then { t with depth_of_field := some tv } else t
  let tv := techData.getD "dof"
  let t := if tv.truthy then { t with depth_of_field := some tv } else t
  let tv := techData.getD "focus"
  let t := if tv.truthy then { t with focus := some tv } else t
  let tv := techData.getD "lens"
  let t := if tv.truthy then { t with lens := some tv } else t
  let tv := techData.getD "aperture"
  let t := if tv.truthy then { t with aperture := some tv } else t
  let tv := techData.getD "iso"
  let t := if tv.truthy then { t with iso := some tv } else t
  let tv := techData.getD "shutter_speed"
  let t := if tv.truthy then { t with shutter_speed := some tv } else t
  t

/-- Lighting, color, mood and tone copying of parseStructuredPrompt (first
half of its field chain, in source order with later keys overriding). -/
def parseStyleDNAHead (parsed : Json) : StyleDNA :=
  let d : StyleDNA := { original := some (.parsed parsed) }
  let v := parsed.getD "lighting"
  let d := if v.truthy then { d with lighting := some v } else d
  let v := parsed.getD "light"
  let d := if v.truthy then { d with lighting := some v } else d
  let v := parsed.getD "illumination"
  let d := if v.truthy then { d with lighting := some v } else d
  let v := parsed.getD "color_palette"
  let d := if v.truthy then { d with color_palette := some v } else d
  let v := parsed.getD "colors"
  let d := if v.truthy then { d with colors := some v } else d
  let v := parsed.getD "palette"
  let d := if v.truthy then { d with color_palette := some v } else d
  let v := parsed.getD "mood"
  let d := if v.truthy then { d with mood := some v } else d
  let v := parsed.getD "atmosphere"
  let d := if v.truthy then { d with atmosphere := some v } else d
  let v := parsed.getD "tone"
  let d := if v.truthy then { d with tone := some v } else d
  let v := parsed.getD "vibe"
  let d := if v.truthy then { d with mood := some v } else d
  d

/-- Technical, artistic, time and weather copying of parseStructuredPrompt
(second half of its field chain). -/
def parseStyleDNATail (parsed : Json) (d : StyleDNA) : StyleDNA :=
  let techData :=
    jsOr (parsed.getD "technical") (jsOr (parsed.getD "camera") (parsed.getD "photography"))
  let d :=
    if techData.truthy then { d with technical := some (parseTechnicalDNA techData) } else d
  let v := parsed.getD "artistic_style"
  let d := if v.truthy then { d with artistic_style := some v } else d
  let v := parsed.getD "photographic_style"
  let d := if v.truthy then { d with photographic_style := some v } else d
  let v := parsed.getD "rendering_style"
  let d := if v.truthy then { d with rendering_style := some v } else d
  let v := parsed.getD "style"
  let d := if v.truthy then { d with artistic_style := some v } else d
  let v := parsed.getD "time_of_day"
  let d := if v.truthy then { d with time_of_day := some v } else d
  let v := parsed.getD "time"
  let d := if v.truthy then { d with time_of_day := some v } else d
  let v := parsed.getD "season"
  let d := if v.truthy then { d with season := some v } else d
  let v := parsed.getD "weather"
  let d := if v.truthy then { d with weather := some v } else d
  d

/-- parseStructuredPrompt: a decode failure, or the TypeError raised by
property access when the decoded value is null, degrades to a StyleDNA
holding only the raw input text; otherwise the field chain runs (property
access on any non-null decoded value cannot raise). -/
def parseStructuredPrompt (raw : String) (parseOutcome : Option Json) : StyleDNA :=
  match parseOutcome with
  | none => { original := some (.rawText raw) }
  | some .null => { original := some (.rawText raw) }
  | some parsed => parseStyleDNATail parsed (parseStyleDNAHead parsed)

/-- Clean lighting sub-values used by styleDNAToPrompt when lighting is an
object: conditions, quality and type, keeping direction out. -/
def cleanLightingParts (l : Json) : List Json :=
  (match jsTruthyOpt (some (l.getD "conditions")) with
   | some v => [v]
   | none => []) ++
  (match jsTruthyOpt (some (l.getD "quality")) with
   | some v => [v]
   | none => []) ++
  (match jsTruthyOpt (some (l.getD "type")) with
   | some v => [v]
   | none => [])

/-- styleDNAToPrompt: renders the populated style fields as comma-joined
key: value clauses in the fixed source order. -/
def styleDNAToPrompt (styleDNA : StyleDNA) : String :=
  let parts : List String :=
    (match jsTruthyOpt styleDNA.lighting with
     | some (.str s) => ["lighting: " ++ s]
     | some (.arr xs) =>
       let cl := cleanLightingParts (.arr xs)
       if cl.length > 0 then ["lighting: " ++ jsArrayJoin cl ", "] else []
     | some (.obj fs) =>
       let cl := cleanLightingParts (.obj fs)
       if cl.length > 0 then ["lighting: " ++ jsArrayJoin cl ", "] else []
     | _ => []) ++
    (let colorsVal := jsOrOpt styleDNA.color_palette styleDNA.colors
     if colorsVal.truthy then
       ["color palette: " ++
         (match colorsVal with
          | .arr xs => jsArrayJoin xs ", "
          | v => v.stringify)]
     else []) ++
    (match jsTruthyOpt styleDNA.mood with
     | some v => ["mood: " ++ v.toDisplay]
     | none => []) ++
    (match jsTruthyOpt styleDNA.atmosphere with
     | some v => ["atmosphere: " ++ v.toDisplay]
     | none => []) ++
    (match jsTruthyOpt styleDNA.tone with
     | some v => ["tone: " ++ v.toDisplay]
     | none => []) ++
    (match styleDNA.technical with
     | some tech =>
       (match jsTruthyOpt tech.depth_of_field with
        | some v => ["depth of field: " ++ v.toDisplay]
        | none => []) ++
       (match jsTruthyOpt tech.focus with
        | some v => ["focus: " ++ v.toDisplay]
        | none => []) ++
       (match jsTruthyOpt tech.lens with
        | some v => ["lens: " ++ v.toDisplay]
        | none => []) ++
       (match jsTruthyOpt tech.aperture with
        | some v => ["aperture: " ++ v.toDisplay]
        | none => [])
     | none => []) ++
    (let styleVal :=
       jsOr (jsOrOpt styleDNA.artistic_style styleDNA.photographic_style)
         ((styleDNA.rendering_style).getD .null)
     if styleVal.truthy then ["style: " ++ styleVal.toDisplay] else []) ++
    (match jsTruthyOpt styleDNA.time_of_day with
     | some v => ["time: " ++ v.toDisplay]
     | none => []) ++
    (match jsTruthyOpt styleDNA.season with
     | some v => ["season: " ++ v.toDisplay]
     | none => []) ++
    (match jsTruthyOpt styleDNA.weather with
     | some v => ["weather: " ++ v.toDisplay]
     | none => [])
  String.intercalate ", " parts

/-- createStyleTransferPrompt: subject plus rendered style fragment, or
the fixed fallback sentence when the fragment is empty. -/
def createStyleTransferPrompt (newSubject : String) (styleDNA : StyleDNA) : String :=
  let styleDescription := styleDNAToPrompt styleDNA
  if styleDescription != "" then
    newSubject ++ ", rendered with: " ++ styleDescription
  else
    newSubject ++ ", maintaining the same visual style, lighting, and atmosphere"

/-! ### Image generation endpoint (src/backend/src/api/generateImage.ts)
and the client payload it produces (BriaApiClient.generateImage)

The handler is modelled up to the point where the outbound payload for the
remote generation endpoint is fully determined; the oracle jparse supplies
the JSON.parse outcome used by the DNA branch.  Body fields are optional
JSON values (absent = undefined). -/

/-- Inbound body of the generation endpoint.  The useStyleDna field models
the DNA-toggle flag of the body (its source name adds a parser suffix);
the sync field can be present in the body but the handler never reads it. -/
structure GenerateBody where
  structured_prompt : Option Json := none
  prompt : Option Json := none
  seed : Option Json := none
  sync : Option Json := none
  useStyleDna : Option Json := none

/-- Request handed by the route handler to BriaApiClient.generateImage. -/
structure ImageGenRequest where
  structured_prompt : Option Json := none
  prompt : Option Json := none
  seed : Option Json := none
  sync : Option Json := none

/-- Payload POSTed by the client to the remote generation endpoint. -/
structure BriaGenPayload where
  sync : Bool
  structured_prompt : Option Json := none
  prompt : Option Json := none
  seed : Option Json := none

/-- BriaApiClient.generateImage payload shaping: sync defaults to true and
is false only when the request carries literal false; structured_prompt
and prompt are forwarded when truthy; seed is forwarded when defined. -/
def buildGeneratePayload (request : ImageGenRequest) : BriaGenPayload :=
  { sync :=
      match request.sync with
      | some (.bool false) => false
      | _ => true
    structured_prompt := jsTruthyOpt request.structured_prompt
    prompt := jsTruthyOpt request.prompt
    seed := request.seed }

/-- The route handler of the generation endpoint, modelled up to the
outbound payload: validates the body, optionally replaces the prompt by a
style-transfer composition while dropping the structured prompt, then
builds the client request with sync hard-coded to true. -/
def generateImageHandler (jparse : String → Option Json) (body : GenerateBody) :
    Except (Nat × String) BriaGenPayload :=
  let spVal := (body.structured_prompt).getD .null
  let promptVal := (body.prompt).getD .null
  if !spVal.truthy && !promptVal.truthy then
    .error (400, "Either structured_prompt or prompt is required")
  else if spVal.truthy && !spVal.isStr then
    .error (400, "structured_prompt must be a string")
  else
    let dnaBranch := ((body.useStyleDna).getD .null).truthy && spVal.truthy
    let composed :=
      match spVal with
      | .str spStr =>
        let styleDNA := parseStructuredPrompt spStr (jparse spStr)
        if styleDNA.keyCount > 1 then
          some (Json.str
            (createStyleTransferPrompt (jsOr promptVal (.str "")).toDisplay styleDNA))
        else none
      | _ => none
    let finalPrompt : Option Json :=
      if dnaBranch then
        match composed with
        | some p => some p
        | none => body.prompt
      else body.prompt
    let finalStructuredPrompt : Option Json :=
      if dnaBranch then none else body.structured_prompt
    let requestPayload : ImageGenRequest :=
      { prompt := finalPrompt
        seed := body.seed
        sync := some (.bool true)
        structured_prompt := jsTruthyOpt finalStructuredPrompt }
    .ok (buildGeneratePayload requestPayload)

/-! ### Style extraction endpoint (src/backend/src/api/styleExtract.ts)

The upload middleware is modelled from the multer contract as configured
by the route: memory storage, a per-file size limit defaulting to 10485760
bytes, a file filter on MIME type or extension, and a field cap of five
files from upload.array; a sixth file aborts the parse with the unexpected
field error, which handleMulterError maps to a 400 (this also makes the
in-handler twenty-file check unreachable, and the global twenty-file limit
of the multer limits object sits behind the five-file cap).  Per-image
calls to the API client are supplied by an oracle from the image index to
the outcome of client.extractStyle on that single-image batch. -/

/-- One uploaded file: original name, MIME type, buffer length. -/
structure UploadedFile where
  originalname : String
  mimetype : String
  size : Nat

/-- MIME types accepted by the file filter. -/
def allowedTypes : List String :=
  ["image/jpeg", "image/jpg", "image/png", "image/webp", "image/x-png", "image/pjpeg"]

/-- Extensions accepted by the file filter. -/
def allowedExtensions : List String := ["jpg", "jpeg", "png", "webp"]

/-- Extension of the lower-cased original name (last dot-separated part of
the JS split on a dot). -/
def fileExtOf (name : String) : String :=
  ((((jsToLower name).data.splitOn '.').map String.mk).getLast?).getD ""

/-- The file filter of the route: accept when the MIME type is allowed or
the extension is allowed (and non-empty). -/
def fileFilterAccepts (f : UploadedFile) : Bool :=
  allowedTypes.contains f.mimetype ||
    (fileExtOf f.originalname != "" && allowedExtensions.contains (fileExtOf f.originalname))

/-- Default per-file upload size limit (MAX_FILE_SIZE default). -/
def maxFileSize : Nat := 10485760

/-- The upload middleware over the incoming files in order, already mapped
through handleMulterError: a file beyond the five-file field cap yields
the unexpected-field 400, a rejected type yields its filter message, an
oversize file yields the mapped size message. -/
def multerStage : List UploadedFile → Nat → Except (Nat × String) Unit
  | [], _ => .ok ()
  | f :: fs, seen =>
    if seen ≥ 5 then .error (400, "Unexpected field")
    else if !fileFilterAccepts f then
      .error (400, "Invalid file type: " ++
        (if f.mimetype = "" then "unknown" else f.mimetype) ++
        ". Only JPEG, PNG, and WebP are allowed.")
    else if f.size > maxFileSize then
      .error (400, "File size too large. Maximum 10MB per file.")
    else multerStage fs (seen + 1)

/-- In-handler buffer validation: empty or oversize buffers are rejected
with a 400 before any outbound call. -/
def validateBuffers : List UploadedFile → Nat → Except (Nat × String) Unit
  | [], _ => .ok ()
  | f :: fs, i =>
    if f.size = 0 then
      .error (400, "File " ++ toString (i + 1) ++ " (" ++ f.originalname ++
        ") has no data or is corrupted")
    else if f.size > 10485760 then
      .error (400, "File " ++ toString (i + 1) ++ " (" ++ f.originalname ++
        ") exceeds 10MB limit")
    else validateBuffers fs (i + 1)

/-- One successfully extracted structured prompt with its image index. -/
structure IndexedPrompt where
  seed : Int
  structured_prompt : String
  imageIndex : Nat

/-- One recorded per-image failure. -/
structure ImageError where
  imageIndex : Nat
  error : String

/-- StyleProfile as returned by the endpoint (errors is sent as undefined
when empty; it is modelled as the empty list). -/
structure StyleProfile where
  name : String
  createdAt : String
  images : List IndexedPrompt
  processedImages : Nat
  errors : List ImageError

/-- The sequential per-image loop of the handler starting at index i with
k images left: a success is appended to the prompts with its index, a
failure is appended to the errors, and processing always continues. -/
def processImagesGo (extract : Nat → Except String (Int × String)) :
    Nat → Nat → List IndexedPrompt × List ImageError
  | _, 0 => ([], [])
  | i, k + 1 =>
    let rest := processImagesGo extract (i + 1) k
    match extract i with
    | .ok r => (⟨r.1, r.2, i⟩ :: rest.1, rest.2)
    | .error msg => (rest.1, ⟨i, msg⟩ :: rest.2)

/-- The per-image loop over n images. -/
def processImages (extract : Nat → Except String (Int × String)) (n : Nat) :
    List IndexedPrompt × List ImageError :=
  processImagesGo extract 0 n

/-- Profile-name precedence of the handler: trimmed user-supplied name,
else generated name when at least one image succeeded, else the
timestamp fallback. -/
def chooseProfileName (jparse : String → Option Json) (profileNameField : Option String)
    (imgs : List IndexedPrompt) (now : String) : String :=
  match profileNameField with
  | some s =>
    if s.trim != "" then s.trim
    else if imgs.length > 0 then
      generateProfileName jparse (imgs.map (fun p => p.structured_prompt)) 40
    else "Style Profile - " ++ now
  | none =>
    if imgs.length > 0 then
      generateProfileName jparse (imgs.map (fun p => p.structured_prompt)) 40
    else "Style Profile - " ++ now

/-- The style-extraction endpoint: upload middleware, count checks, buffer
validation, sequential extraction, naming, profile assembly.  The now
oracle supplies the ISO timestamp. -/
def styleExtractEndpoint (jparse : String → Option Json) (files : List UploadedFile)
    (profileNameField : Option String) (extract : Nat → Except String (Int × String))
    (now : String) : Except (Nat × String) StyleProfile :=
  match multerStage files 0 with
  | .error e => .error e
  | .ok _ =>
    if files.length = 0 then .error (400, "No images provided")
    else if files.length < 1 then .error (400, "At least 1 image is required")
    else if files.length > 20 then
      .error (400, "Maximum 20 images allowed, received " ++ toString files.length)
    else
      match validateBuffers files 0 with
      | .error e => .error e
      | .ok _ =>
        .ok { name := chooseProfileName jparse profileNameField
                (processImages extract files.length).1 now
              createdAt := now
              images := (processImages extract files.length).1
              processedImages := files.length
              errors := (processImages extract files.length).2 }

/-- Number of space-separated words of a string (length of the JS split
on a single space). -/
def wordCount (s : String) : Nat := (jsSplitWords s).length

/-! ### Retry loop lemmas -/

theorem retryGo_ok_eq (op : Nat → Except ε α) (mult maxDelay attempt delay remaining : Nat)
    (v : α) (he : op attempt = .ok v) :
    retryGo op mult maxDelay attempt delay remaining = ⟨.ok v, 1, []⟩ := by
  rw [retryGo, he]

theorem retryGo_error_zero (op : Nat → Except ε α) (mult maxDelay attempt delay : Nat)
    (e : ε) (he : op attempt = .error e) :
    retryGo op mult maxDelay attempt delay 0 = ⟨.error e, 1, []⟩ := by
  rw [retryGo, he]

theorem retryGo_error_succ (op : Nat → Except ε α) (mult maxDelay attempt delay r : Nat)
    (e : ε) (he : op attempt = .error e) :
    retryGo op mult maxDelay attempt delay (r + 1) =
      ⟨(retryGo op mult maxDelay (attempt + 1) (min (delay * mult) maxDelay) r).result,
        (retryGo op mult maxDelay (attempt + 1) (min (delay * mult) maxDelay) r).invocations + 1,
        delay ::
          (retryGo op mult maxDelay (attempt + 1) (min (delay * mult) maxDelay) r).delays⟩ := by
  rw [retryGo, he]

theorem retryGo_ok (op : Nat → Except ε α) (mult maxDelay : Nat) :
    ∀ (remaining attempt delay : Nat),
      (∀ k, attempt ≤ k → k < attempt + remaining → ∃ e, op k = .error e) →
      ∀ v, op (attempt + remaining) = .ok v →
        (retryGo op mult maxDelay attempt delay remaining).result = .ok v ∧
          (retryGo op mult maxDelay attempt delay remaining).invocations = remaining + 1 := by
  intro remaining
  induction remaining with
  | zero =>
    intro attempt delay _ v hok
    simp only [Nat.add_zero] at hok
    rw [retryGo_ok_eq op mult maxDelay attempt delay 0 v hok]
    exact ⟨rfl, rfl⟩
  | succ r ih =>
    intro attempt delay hfail v hok
    obtain ⟨e, he⟩ := hfail attempt (Nat.le_refl _) (by omega)
    have hok' : op (attempt + 1 + r) = .ok v := by
      have hidx : attempt + 1 + r = attempt + (r + 1) := by omega
      rw [hidx]; exact hok
    have hfail' : ∀ k, attempt + 1 ≤ k → k < attempt + 1 + r → ∃ e, op k = .error e := by
      intro k h1 h2
      exact hfail k (by omega) (by omega)
    obtain ⟨h1, h2⟩ :=
      ih (attempt + 1) (min (delay * mult) maxDelay) hfail' v hok'
    rw [retryGo_error_succ op mult maxDelay attempt delay r e he]
    exact ⟨h1, by simp [h2]⟩

theorem retryGo_allFail (op : Nat → Except ε α) (mult maxDelay : Nat) :
    ∀ (remaining attempt delay : Nat) (es : Nat → ε),
      (∀ k, attempt ≤ k → k ≤ attempt + remaining → op k = .error (es k)) →
        (retryGo op mult maxDelay attempt delay remaining).result =
            .error (es (attempt + remaining)) ∧
          (retryGo op mult maxDelay attempt delay remaining).invocations = remaining + 1 := by
  intro remaining
  induction remaining with
  | zero =>
    intro attempt delay es hfail
    have he := hfail attempt (Nat.le_refl _) (by omega)
    rw [retryGo_error_zero op mult maxDelay attempt delay _ he]
    exact ⟨by simp, rfl⟩
  | succ r ih =>
    intro attempt delay es hfail
    have he := hfail attempt (Nat.le_refl _) (by omega)
    have hfail' : ∀ k, attempt + 1 ≤ k → k ≤ attempt + 1 + r → op k = .error (es k) := by
      intro k h1 h2
      exact hfail k (by omega) (by omega)
    obtain ⟨h1, h2⟩ := ih (attempt + 1) (min (delay * mult) maxDelay) es hfail'
    have hidx : attempt + 1 + r = attempt + (r + 1) := by omega
    rw [hidx] at h1
    rw [retryGo_error_succ op mult maxDelay attempt delay r _ he]
    exact ⟨h1, by simp [h2]⟩

theorem retryGo_allError (op : Nat → Except ε α) (mult maxDelay : Nat)
    (remaining attempt delay : Nat) (h : ∀ k, ∃ e, op k = .error e) :
    (∃ e, (retryGo op mult maxDelay attempt delay remaining).result = .error e) ∧
      (retryGo op mult maxDelay attempt delay remaining).invocations = remaining + 1 := by
  choose es hes using h
  obtain ⟨h1, h2⟩ :=
    retryGo_allFail op mult maxDelay remaining attempt delay es (fun k _ _ => hes k)
  exact ⟨⟨es (attempt + remaining), h1⟩, h2⟩

/-- Claim C6: for every operation and options, an operation failing on
every attempt before maxRetries and succeeding on attempt maxRetries makes
retryWithBackoff return that success with exactly maxRetries + 1
invocations, and an operation failing on every attempt up to and including
maxRetries makes it re-raise the error of the final attempt, again after
exactly maxRetries + 1 invocations. -/
theorem c6_retrier_attempt_budget (op : Nat → Except ε α) (opts : RetryOptions) :
    ((∀ k, k < opts.maxRetries → ∃ e, op k = .error e) →
      ∀ v, op opts.maxRetries = .ok v →
        (retryWithBackoff op opts).result = .ok v ∧
          (retryWithBackoff op opts).invocations = opts.maxRetries + 1) ∧
    (∀ es : Nat → ε, (∀ k, k ≤ opts.maxRetries → op k = .error (es k)) →
      (retryWithBackoff op opts).result = .error (es opts.maxRetries) ∧
        (retryWithBackoff op opts).invocations = opts.maxRetries + 1) := by
  constructor
  · intro hfail v hok
    exact retryGo_ok op opts.backoffMultiplier opts.maxDelay opts.maxRetries 0
      opts.initialDelay (fun k _ hk => hfail k (by omega)) v (by simpa using hok)
  · intro es hfail
    have := retryGo_allFail op opts.backoffMultiplier opts.maxDelay opts.maxRetries 0
      opts.initialDelay es (fun k _ hk => hfail k (by omega))
    simpa using this

/-- Witness for C6 at a concrete operation failing twice with maxRetries
two, then succeeding. -/
theorem c6_retrier_attempt_budget_witness :
    (retryWithBackoff (fun k => if k < 2 then Except.error "boom" else Except.ok 42)
        { maxRetries := 2 }).result = .ok 42 ∧
      (retryWithBackoff (fun k => if k < 2 then Except.error "boom" else Except.ok 42)
        { maxRetries := 2 }).invocations = 3 :=
  (c6_retrier_attempt_budget (fun k => if k < 2 then Except.error "boom" else Except.ok 42)
      { maxRetries := 2 }).1
    (fun k hk => ⟨"boom", by simp [show k < 2 from hk]⟩) 42 (by simp)

/-- Claim C1 (failing part): a polling session whose every status reply is
ERROR with a service message does not raise that message; the loop swallows
the thrown error on every attempt and, after the 30-poll budget, raises
the timeout message, having never slept. -/
theorem c1_error_status_swallowed :
    pollStyleExtractStatus
        (fun _ => .reply (.obj [("status", .str "ERROR"),
          ("error", .obj [("message", .str "boom")])])) =
      (.error "Polling timeout for style extraction", []) := by
  rfl

/-- Claim C5 (counterexample): the image-generation polling loop treats the
lower-case completed status as terminal, so its terminal vocabulary is not
exactly the upper-case pair. -/
theorem c5_imagegen_lowercase_terminal :
    imageGenDone (.str "completed") = true ∧
      "completed" ≠ "COMPLETED" ∧ "completed" ≠ "ERROR" := by
  refine ⟨rfl, by decide, by decide⟩

/-- Claim C5 (amended): the style-extraction loop treats exactly the
upper-case statuses as terminal and the preview loop exactly the
lower-case ones, but the image-generation loop accepts both vocabularies:
COMPLETED or completed as terminal success, ERROR or failed as terminal
failure. -/
theorem c5_amended_status_vocabularies (s : String) :
    (styleExtractDone (.str s) = true ↔ s = "COMPLETED") ∧
    (styleExtractFail (.str s) = true ↔ s = "ERROR") ∧
    (previewDone (.str s) = true ↔ s = "completed") ∧
    (previewFail (.str s) = true ↔ s = "failed") ∧
    (imageGenDone (.str s) = true ↔ (s = "COMPLETED" ∨ s = "completed")) ∧
    (imageGenFail (.str s) = true ↔ (s = "ERROR" ∨ s = "failed")) := by
  refine ⟨?_, ?_, ?_, ?_, ?_, ?_⟩ <;>
    simp [styleExtractDone, styleExtractFail, previewDone, previewFail,
      imageGenDone, imageGenFail]

/-! ### Batch validation and retry interaction (claim C3) -/

theorem extractStyleAttempt_invalid_batch (images : List Nat) (post : ExtractPostOutcome)
    (h : images.length ≠ 1) :
    (extractStyleAttempt images post).2 = 0 ∧
      ∃ e, (extractStyleAttempt images post).1 = .error e := by
  unfold extractStyleAttempt
  cases hf : firstEmptyIdx images with
  | some i => exact ⟨rfl, ⟨"Image " ++ toString (i + 1) ++ " is empty or invalid", rfl⟩⟩
  | none =>
    have hb : (images.length != 1) = true := by simpa using h
    simp [hb]

/-- Claim C3 (counterexample): a two-image batch makes extractStyle raise
the batch-size validation error, but the wrapped operation is invoked four
times (the default maxRetries plus one) with the three backoff sleeps in
between, not exactly once with no delays. -/
theorem c3_validation_error_is_retried :
    (extractStyle [5, 7] (fun _ => .otherFailure "unused")).result =
        .error "Bria API v2 supports only 1 image per request. Please send images one at a time." ∧
      (extractStyle [5, 7] (fun _ => .otherFailure "unused")).invocations = 4 ∧
      (extractStyle [5, 7] (fun _ => .otherFailure "unused")).delays = [1000, 2000, 4000] := by
  exact ⟨rfl, rfl, rfl⟩

/-- Claim C3 (amended): for every batch whose size is not one, every
attempt of extractStyle raises before performing any outbound POST; the
validation error is however retried like any other failure, so the
wrapped operation is invoked maxRetries + 1 times and the run ends in an
error. -/
theorem c3_amended_validation_before_call (images : List Nat)
    (posts : Nat → ExtractPostOutcome) (opts : RetryOptions) (h : images.length ≠ 1) :
    (∀ k, (extractStyleAttempt images (posts k)).2 = 0) ∧
      (∃ e, (extractStyle images posts opts).result = .error e) ∧
      (extractStyle images posts opts).invocations = opts.maxRetries + 1 := by
  refine ⟨fun k => (extractStyleAttempt_invalid_batch images (posts k) h).1, ?_, ?_⟩
  · exact (retryGo_allError (fun k => (extractStyleAttempt images (posts k)).1)
      opts.backoffMultiplier opts.maxDelay opts.maxRetries 0 opts.initialDelay
      (fun k => (extractStyleAttempt_invalid_batch images (posts k) h).2)).1
  · exact (retryGo_allError (fun k => (extractStyleAttempt images (posts k)).1)
      opts.backoffMultiplier opts.maxDelay opts.maxRetries 0 opts.initialDelay
      (fun k => (extractStyleAttempt_invalid_batch images (posts k) h).2)).2

/-- Witness for the amended C3 at the concrete two-image batch. -/
theorem c3_amended_validation_before_call_witness :
    (∀ k, (extractStyleAttempt [5, 7]
        ((fun _ : Nat => ExtractPostOutcome.otherFailure "unused") k)).2 = 0) ∧
      (∃ e, (extractStyle [5, 7] (fun _ : Nat => ExtractPostOutcome.otherFailure "unused")
        {}).result = .error e) ∧
      (extractStyle [5, 7] (fun _ : Nat => ExtractPostOutcome.otherFailure "unused")
          {}).invocations =
        RetryOptions.maxRetries {} + 1 :=
  c3_amended_validation_before_call [5, 7] (fun _ => .otherFailure "unused") {} (by decide)

/-! ### Outbound sync flag (claim C10) -/

/-- Claim C10: every request accepted by the generation endpoint produces
an outbound payload with sync true, whatever sync value the inbound body
carried: the handler hard-codes sync true and the client lowers it only
for a literal false. -/
theorem c10_outbound_sync_true (jparse : String → Option Json) (body : GenerateBody)
    (payload : BriaGenPayload) (h : generateImageHandler jparse body = .ok payload) :
    payload.sync = true := by
  unfold generateImageHandler at h
  dsimp only at h
  split_ifs at h
  all_goals (cases h <;> rfl)

/-- Witness for C10 at a concrete body that even carries sync false. -/
theorem c10_outbound_sync_true_witness :
    BriaGenPayload.sync
        { sync := true, prompt := some (.str "a dog"), structured_prompt := none, seed := none } =
      true :=
  c10_outbound_sync_true (fun _ => none)
    { prompt := some (.str "a dog"), sync := some (.bool false) }
    { sync := true, prompt := some (.str "a dog"), structured_prompt := none, seed := none } rfl

/-! ### Decode-failure degradation (claim C8) -/

/-- Claim C8: for every input string, a decode failure makes attribute
extraction return the attribute object with no populated categories and
makes DNA parsing return an object whose original field holds the raw
input text; both functions are total by construction, every failure path
of the source being caught and degraded to these values. -/
theorem c8_decode_failure_degrades (raw : String) :
    extractStyleAttributes none = ({} : StyleAttributes) ∧
      parseStructuredPrompt raw none = { original := some (.rawText raw) } :=
  ⟨rfl, rfl⟩

/-! ### DNA-enabled prompt shaping (claim C4) -/

theorem append_ne_empty_left (s t : String) (h : s ≠ "") : s ++ t ≠ "" := by
  intro hc
  apply h
  have hd := congrArg String.data hc
  rw [String.data_append] at hd
  have hnil : s.data = [] := (List.append_eq_nil.mp hd).1
  cases s with
  | mk d => simp at hnil; simp [hnil]

/-- Claim C4 (counterexample): with the DNA flag set, a present structured
prompt that decodes to an object with no recognized style field, and the
prompt a red bicycle, the outbound request carries the prompt unchanged:
it neither begins with the rendered-with prefix nor equals the fallback
sentence (the structured prompt is still omitted). -/
theorem c4_prompt_passthrough_counterexample :
    generateImageHandler (fun s => if s = "\x7b\x7d" then some (.obj []) else none)
        { structured_prompt := some (.str "\x7b\x7d"),
          prompt := some (.str "a red bicycle"),
          useStyleDna := some (.bool true) } =
      .ok { sync := true, prompt := some (.str "a red bicycle") } ∧
      (¬ ∃ rest, "a red bicycle" = "a red bicycle, rendered with: " ++ rest) ∧
      "a red bicycle" ≠
        "a red bicycle, maintaining the same visual style, lighting, and atmosphere" := by
  refine ⟨rfl, ?_, by decide⟩
  rintro ⟨rest, hr⟩
  have hlen := congrArg String.length hr
  rw [String.length_append] at hlen
  have h1 : ("a red bicycle").length = 13 := rfl
  have h2 : ("a red bicycle, rendered with: ").length = 30 := rfl
  omega

/-- Claim C4 (amended): with the DNA flag true, a non-empty structured
prompt string and the prompt a red bicycle, the outbound request always
omits structured_prompt, and its prompt begins with the rendered-with
prefix, or equals the fallback sentence, or passes through unchanged as a
red bicycle when no style attribute was recognized. -/
theorem c4_amended_dna_prompt_shapes (jparse : String → Option Json) (body : GenerateBody)
    (spStr : String) (hsp : body.structured_prompt = some (.str spStr)) (hne : spStr ≠ "")
    (hflag : body.useStyleDna = some (.bool true))
    (hprompt : body.prompt = some (.str "a red bicycle")) :
    ∃ payload, generateImageHandler jparse body = .ok payload ∧
      payload.structured_prompt = none ∧
      (payload.prompt = some (.str "a red bicycle") ∨
        (∃ rest, payload.prompt = some (.str ("a red bicycle, rendered with: " ++ rest))) ∨
        payload.prompt = some (.str
          "a red bicycle, maintaining the same visual style, lighting, and atmosphere")) := by
  have htr : (Json.str spStr).truthy = true := by
    simp [Json.truthy]
    exact hne
  unfold generateImageHandler
  rw [hsp, hprompt, hflag]
  dsimp only
  simp only [Option.getD_some, htr, Bool.not_true, Bool.false_and, Bool.and_false, Bool.true_and,
    Bool.and_true, if_false, Bool.false_eq_true]
  simp only [Json.isStr, Json.truthy, Bool.not_true, Bool.false_eq_true, if_false, if_true,
    eq_self_iff_true, Bool.not_false]
  have hsubj : (jsOr (Json.str "a red bicycle") (Json.str "")).toDisplay = "a red bicycle" := rfl
  rw [hsubj]
  by_cases hk : (parseStructuredPrompt spStr (jparse spStr)).keyCount > 1
  · rw [if_pos hk]
    have hcomp : createStyleTransferPrompt "a red bicycle"
        (parseStructuredPrompt spStr (jparse spStr)) ≠ "" := by
      unfold createStyleTransferPrompt
      dsimp only
      split_ifs
      · exact append_ne_empty_left _ _ (by decide)
      · exact append_ne_empty_left _ _ (by decide)
    have hcompb : (createStyleTransferPrompt "a red bicycle"
        (parseStructuredPrompt spStr (jparse spStr)) != "") = true := by
      simpa using hcomp
    refine ⟨_, rfl, ?_, ?_⟩
    · simp only [buildGeneratePayload]
      simp [jsTruthyOpt]
    · simp only [buildGeneratePayload]
      simp only [jsTruthyOpt, Json.truthy, hcompb, if_true]
      by_cases hdesc : styleDNAToPrompt (parseStructuredPrompt spStr (jparse spStr)) = ""
      · right; right
        have hc : createStyleTransferPrompt "a red bicycle"
            (parseStructuredPrompt spStr (jparse spStr)) =
            "a red bicycle, maintaining the same visual style, lighting, and atmosphere" := by
          unfold createStyleTransferPrompt
          dsimp only
          rw [hdesc]
          rfl
        rw [hc]
      · right; left
        refine ⟨styleDNAToPrompt (parseStructuredPrompt spStr (jparse spStr)), ?_⟩
        have hb : (styleDNAToPrompt (parseStructuredPrompt spStr (jparse spStr)) != "") = true := by
          simpa using hdesc
        have hc : createStyleTransferPrompt "a red bicycle"
            (parseStructuredPrompt spStr (jparse spStr)) =
            "a red bicycle, rendered with: " ++
              styleDNAToPrompt (parseStructuredPrompt spStr (jparse spStr)) := by
          unfold createStyleTransferPrompt
          dsimp only
          rw [hb]
          rfl
        rw [hc]
  · rw [if_neg hk]
    refine ⟨_, rfl, ?_, Or.inl ?_⟩
    · simp only [buildGeneratePayload]
      simp [jsTruthyOpt]
    · simp only [buildGeneratePayload]
      simp [jsTruthyOpt, Json.truthy]

/-- Witness for the amended C4 at a structured prompt carrying a lighting
attribute. -/
theorem c4_amended_dna_prompt_shapes_witness :
    ∃ payload,
      generateImageHandler
          (fun s => if s = "L" then some (.obj [("lighting", .str "warm glow")]) else none)
          { structured_prompt := some (.str "L"),
            prompt := some (.str "a red bicycle"),
            useStyleDna := some (.bool true) } =
        .ok payload ∧
      payload.structured_prompt = none ∧
      (payload.prompt = some (.str "a red bicycle") ∨
        (∃ rest, payload.prompt = some (.str ("a red bicycle, rendered with: " ++ rest))) ∨
        payload.prompt = some (.str
          "a red bicycle, maintaining the same visual style, lighting, and atmosphere")) :=
  c4_amended_dna_prompt_shapes
    (fun s => if s = "L" then some (.obj [("lighting", .str "warm glow")]) else none)
    { structured_prompt := some (.str "L"),
      prompt := some (.str "a red bicycle"),
      useStyleDna := some (.bool true) }
    "L" rfl (by decide) rfl rfl

/-! ### Word-splitting lemmas (claim C7) -/

theorem splitOnP_chunks_no_sat {α : Type} (p : α → Bool) :
    ∀ (l : List α) (w : List α), w ∈ l.splitOnP p → ∀ x ∈ w, ¬ p x = true := by
  intro l
  induction l with
  | nil =>
    intro w hw
    rw [List.splitOnP_nil] at hw
    simp only [List.mem_singleton] at hw
    subst hw
    simp
  | cons a l ih =>
    intro w hw
    rw [List.splitOnP_cons] at hw
    by_cases hpa : p a = true
    · rw [if_pos hpa] at hw
      rcases List.mem_cons.mp hw with rfl | h
      · simp
      · exact ih w h
    · rw [if_neg hpa] at hw
      cases hsp : l.splitOnP p with
      | nil => exact absurd hsp (List.splitOnP_ne_nil p l)
      | cons hd tl =>
        rw [hsp] at hw
        rw [List.modifyHead_cons] at hw
        rcases List.mem_cons.mp hw with rfl | h
        · intro x hx
          rcases List.mem_cons.mp hx with rfl | hx2
          · exact hpa
          · exact ih hd (by rw [hsp]; exact List.mem_cons_self hd tl) x hx2
        · exact ih w (by rw [hsp]; exact List.mem_cons_of_mem hd h)

theorem jsSplitWords_no_space (s : String) : ∀ w ∈ jsSplitWords s, ' ' ∉ w.data := by
  intro w hw
  unfold jsSplitWords at hw
  rw [List.mem_map] at hw
  obtain ⟨cs, hcs, rfl⟩ := hw
  intro hsp
  have hmem : cs ∈ s.data.splitOnP (fun c => c == ' ') := by
    simpa [List.splitOn] using hcs
  have := splitOnP_chunks_no_sat (fun c => c == ' ') s.data cs hmem ' ' hsp
  simp at this

theorem jsSplitWords_ne_nil (s : String) : jsSplitWords s ≠ [] := by
  unfold jsSplitWords
  intro h
  rw [List.map_eq_nil_iff] at h
  exact List.splitOnP_ne_nil _ s.data (by simpa [List.splitOn] using h)

theorem jsSplit_join (ws : List String) (hne : ws ≠ []) (hsp : ∀ w ∈ ws, ' ' ∉ w.data) :
    jsSplitWords (jsJoinWords ws) = ws := by
  unfold jsSplitWords jsJoinWords
  have hx : ∀ l ∈ ws.map String.data, ' ' ∉ l := by
    intro l hl
    rw [List.mem_map] at hl
    obtain ⟨w, hw, rfl⟩ := hl
    exact hsp w hw
  have hls : ws.map String.data ≠ [] := by simpa using hne
  have hdata : (String.mk ([' '].intercalate (ws.map String.data))).data =
      [' '].intercalate (ws.map String.data) := rfl
  rw [hdata, List.splitOn_intercalate (ws.map String.data) ' ' hx hls, List.map_map]
  have hid : (String.mk ∘ String.data) = id := by
    funext w
    cases w
    rfl
  rw [hid, List.map_id]

theorem wordCount_join (ws : List String) (hne : ws ≠ []) (hsp : ∀ w ∈ ws, ' ' ∉ w.data) :
    wordCount (jsJoinWords ws) = ws.length := by
  unfold wordCount
  rw [jsSplit_join ws hne hsp]

theorem trimWordsGo_subset (maxLength : Nat) :
    ∀ (fuel : Nat) (ws : List String), ∀ w ∈ trimWordsGo maxLength fuel ws, w ∈ ws := by
  intro fuel
  induction fuel with
  | zero => intro ws w hw; exact hw
  | succ fuel ih =>
    intro ws w hw
    rw [trimWordsGo] at hw
    split_ifs at hw
    · exact List.dropLast_subset ws (ih ws.dropLast w hw)
    · exact hw

theorem trimWords_subset (maxLength : Nat) (ws : List String) :
    ∀ w ∈ trimWords maxLength ws, w ∈ ws :=
  trimWordsGo_subset maxLength ws.length ws

theorem trimWordsGo_ne_nil (maxLength : Nat) :
    ∀ (fuel : Nat) (ws : List String), ws ≠ [] → trimWordsGo maxLength fuel ws ≠ [] := by
  intro fuel
  induction fuel with
  | zero => intro ws hne; exact hne
  | succ fuel ih =>
    intro ws hne
    rw [trimWordsGo]
    split_ifs with h
    · apply ih
      intro hd
      have hlen := congrArg List.length hd
      rw [List.length_dropLast] at hlen
      simp at hlen
      omega
    · exact hne

theorem trimWords_ne_nil (maxLength : Nat) (ws : List String) (hne : ws ≠ []) :
    trimWords maxLength ws ≠ [] :=
  trimWordsGo_ne_nil maxLength ws.length ws hne

theorem trimWordsGo_post (maxLength : Nat) :
    ∀ (fuel : Nat) (ws : List String), ws.length ≤ fuel + 2 →
      (trimWordsGo maxLength fuel ws).length ≤ 2 ∨
        (jsJoinWords (trimWordsGo maxLength fuel ws)).length ≤ maxLength := by
  intro fuel
  induction fuel with
  | zero => intro ws hlen; left; simpa [trimWordsGo] using hlen
  | succ fuel ih =>
    intro ws hlen
    rw [trimWordsGo]
    split_ifs with h
    · apply ih
      rw [List.length_dropLast]
      omega
    · rw [not_and_or] at h
      rcases h with h | h
      · left; omega
      · right; omega

theorem trimWords_post (maxLength : Nat) (ws : List String) :
    (trimWords maxLength ws).length ≤ 2 ∨
      (jsJoinWords (trimWords maxLength ws)).length ≤ maxLength :=
  trimWordsGo_post maxLength ws.length ws (by omega)

/-- Claim C7 (counterexample): a single prompt whose only attribute is the
mood serene with maxLength 5 yields the one-word name Serene, which is
longer than 5 yet does not have exactly two words. -/
theorem c7_single_word_over_limit :
    generateProfileName
        (fun s => if s = "m" then some (.obj [("mood", .str "serene")]) else none) ["m"] 5 =
      "Serene" ∧
      ¬ ("Serene").length ≤ 5 ∧ wordCount "Serene" ≠ 2 := by
  refine ⟨by decide, by decide, by decide⟩

/-- Claim C7 (amended): for every input sequence and every maxLength, the
generated name fits in maxLength, or has at most two words (the trimming
floor, which a one-word name never reaches), or is the untrimmed literal
Custom Style Profile returned when no keyword was extracted. -/
theorem c7_amended_name_bound (jparse : String → Option Json) (prompts : List String)
    (maxLength : Nat) :
    (generateProfileName jparse prompts maxLength).length ≤ maxLength ∨
      wordCount (generateProfileName jparse prompts maxLength) ≤ 2 ∨
      generateProfileName jparse prompts maxLength = "Custom Style Profile" := by
  unfold generateProfileName
  dsimp only
  split_ifs with h1 h2 h3 h4
  · right; left; decide
  · right; right; rfl
  · right; left; decide
  · set name := capitalizeWords
      (jsJoinWords (getTopAttributes (aggregateAttributes jparse prompts) 4)) with hname
    rcases trimWords_post maxLength (jsSplitWords name) with hle | hfits
    · right; left
      rw [wordCount_join _ (trimWords_ne_nil maxLength _ (jsSplitWords_ne_nil name))
        (fun w hw => jsSplitWords_no_space name w (trimWords_subset maxLength _ w hw))]
      exact hle
    · left
      exact hfits
  · right; left; decide
  · left
    omega

/-! ### Endpoint file-count lemmas (claim C2) -/

theorem multerStage_ok (files : List UploadedFile) :
    ∀ seen, (∀ f ∈ files, fileFilterAccepts f = true ∧ f.size ≤ maxFileSize) →
      files.length + seen ≤ 5 → multerStage files seen = .ok () := by
  induction files with
  | nil => intro seen _ _; rfl
  | cons f fs ih =>
    intro seen hv hlen
    obtain ⟨hf, hs⟩ := hv f (List.mem_cons_self f fs)
    rw [multerStage, if_neg (by simp at hlen; omega), if_neg (by simp [hf]),
      if_neg (by omega)]
    exact ih (seen + 1) (fun g hg => hv g (List.mem_cons_of_mem f hg))
      (by simp at hlen; omega)

theorem multerStage_over_cap (files : List UploadedFile) :
    ∀ seen, (∀ f ∈ files, fileFilterAccepts f = true ∧ f.size ≤ maxFileSize) →
      seen ≤ 5 → 5 < files.length + seen →
      multerStage files seen = .error (400, "Unexpected field") := by
  induction files with
  | nil => intro seen _ hseen hlen; simp at hlen; omega
  | cons f fs ih =>
    intro seen hv hseen hlen
    obtain ⟨hf, hs⟩ := hv f (List.mem_cons_self f fs)
    by_cases hfull : seen ≥ 5
    · rw [multerStage, if_pos hfull]
    · rw [multerStage, if_neg hfull, if_neg (by simp [hf]), if_neg (by omega)]
      exact ih (seen + 1) (fun g hg => hv g (List.mem_cons_of_mem f hg)) (by omega)
        (by simp at hlen; omega)

theorem validateBuffers_ok (files : List UploadedFile) :
    ∀ i, (∀ f ∈ files, 0 < f.size ∧ f.size ≤ 10485760) →
      validateBuffers files i = .ok () := by
  induction files with
  | nil => intro i _; rfl
  | cons f fs ih =>
    intro i hv
    obtain ⟨hpos, hsz⟩ := hv f (List.mem_cons_self f fs)
    rw [validateBuffers, if_neg (by omega), if_neg (by omega)]
    exact ih (i + 1) (fun g hg => hv g (List.mem_cons_of_mem f hg))

/-! ### Per-image processing loop lemmas (claim C9) -/

theorem processImagesGo_length (extract : Nat → Except String (Int × String)) :
    ∀ (k i : Nat),
      (processImagesGo extract i k).1.length + (processImagesGo extract i k).2.length = k := by
  intro k
  induction k with
  | zero => intro i; rfl
  | succ k ih =>
    intro i
    rw [processImagesGo]
    cases hx : extract i with
    | ok r =>
      dsimp only
      rw [List.length_cons]
      have := ih (i + 1)
      omega
    | error m =>
      dsimp only
      rw [List.length_cons]
      have := ih (i + 1)
      omega

theorem processImagesGo_img_facts (extract : Nat → Except String (Int × String)) :
    ∀ (k i : Nat), ∀ p ∈ (processImagesGo extract i k).1,
      i ≤ p.imageIndex ∧ p.imageIndex < i + k ∧
        extract p.imageIndex = .ok (p.seed, p.structured_prompt) := by
  intro k
  induction k with
  | zero => intro i p hp; exact absurd hp (by simp [processImagesGo])
  | succ k ih =>
    intro i p hp
    rw [processImagesGo] at hp
    cases hx : extract i with
    | ok r =>
      rw [hx] at hp
      dsimp only at hp
      rcases List.mem_cons.mp hp with rfl | hp2
      · refine ⟨?_, ?_, ?_⟩
        · exact Nat.le_refl i
        · dsimp only
          omega
        · dsimp only
          rw [hx]
      · obtain ⟨hlo, hhi, hex⟩ := ih (i + 1) p hp2
        exact ⟨by omega, by omega, hex⟩
    | error m =>
      rw [hx] at hp
      dsimp only at hp
      obtain ⟨hlo, hhi, hex⟩ := ih (i + 1) p hp
      exact ⟨by omega, by omega, hex⟩

theorem processImagesGo_err_complete (extract : Nat → Except String (Int × String)) :
    ∀ (k i j : Nat) (msg : String), i ≤ j → j < i + k → extract j = .error msg →
      (⟨j, msg⟩ : ImageError) ∈ (processImagesGo extract i k).2 := by
  intro k
  induction k with
  | zero => intro i j msg h1 h2 _; omega
  | succ k ih =>
    intro i j msg h1 h2 hx
    rw [processImagesGo]
    by_cases hij : j = i
    · subst hij
      rw [hx]
      dsimp only
      exact List.mem_cons_self _ _
    · have hrec := ih (i + 1) j msg (by omega) (by omega) hx
      cases hy : extract i with
      | ok r => dsimp only; exact hrec
      | error m => dsimp only; exact List.mem_cons_of_mem _ hrec

theorem processImagesGo_sorted (extract : Nat → Except String (Int × String)) :
    ∀ (k i : Nat),
      ((processImagesGo extract i k).1.map (fun p => p.imageIndex)).Pairwise (· < ·) := by
  intro k
  induction k with
  | zero => intro i; simp [processImagesGo]
  | succ k ih =>
    intro i
    rw [processImagesGo]
    cases hx : extract i with
    | ok r =>
      dsimp only
      rw [List.map_cons]
      refine List.Pairwise.cons ?_ (ih (i + 1))
      intro x hx2
      rw [List.mem_map] at hx2
      obtain ⟨q, hq, rfl⟩ := hx2
      have hlo := (processImagesGo_img_facts extract k (i + 1) q hq).1
      dsimp only
      omega
    | error m =>
      dsimp only
      exact ih (i + 1)

/-- Claim C2 (counterexample): a request carrying six well-formed JPEG
images, well inside the claimed 1 to 20 window, is rejected with a 400 by
the upload middleware (the five-file field cap) instead of being accepted
and forwarded. -/
theorem c2_six_images_rejected :
    styleExtractEndpoint (fun _ => none)
        (List.replicate 6 ⟨"a.jpg", "image/jpeg", 100⟩) none
        (fun _ => .ok (7, "sp")) "NOW" =
      .error (400, "Unexpected field") ∧
      1 ≤ 6 ∧ 6 ≤ 20 := by
  exact ⟨rfl, by decide, by decide⟩

/-- Claim C2 (amended): over well-formed files (accepted type, non-empty,
within the size limit), the extraction endpoint accepts every request
carrying 1 to 5 images, processing each of them, and rejects a request
carrying 0 images or more than 5 with a 400 client error (the upload
middleware caps the field at five files, so the in-handler twenty-image
bound is unreachable). -/
theorem c2_amended_count_bounds (jparse : String → Option Json) (files : List UploadedFile)
    (pname : Option String) (extract : Nat → Except String (Int × String)) (now : String)
    (hvalid : ∀ f ∈ files, fileFilterAccepts f = true ∧ 0 < f.size ∧ f.size ≤ maxFileSize) :
    (1 ≤ files.length → files.length ≤ 5 →
      ∃ p, styleExtractEndpoint jparse files pname extract now = .ok p ∧
        p.processedImages = files.length ∧
        p.images.length + p.errors.length = files.length) ∧
    (files.length = 0 →
      styleExtractEndpoint jparse files pname extract now =
        .error (400, "No images provided")) ∧
    (5 < files.length →
      styleExtractEndpoint jparse files pname extract now =
        .error (400, "Unexpected field")) := by
  refine ⟨?_, ?_, ?_⟩
  · intro h1 h5
    have hm := multerStage_ok files 0
      (fun f hf => ⟨(hvalid f hf).1, (hvalid f hf).2.2⟩) (by omega)
    have hv := validateBuffers_ok files 0
      (fun f hf => ⟨(hvalid f hf).2.1, by
        have := (hvalid f hf).2.2
        simpa [maxFileSize] using this⟩)
    unfold styleExtractEndpoint
    rw [hm]
    rw [if_neg (by omega), if_neg (by omega), if_neg (by omega), hv]
    exact ⟨_, rfl, rfl, processImagesGo_length extract files.length 0⟩
  · intro h0
    have hnil : files = [] := List.length_eq_zero.mp h0
    subst hnil
    rfl
  · intro h5
    have hm := multerStage_over_cap files 0
      (fun f hf => ⟨(hvalid f hf).1, (hvalid f hf).2.2⟩) (by omega) (by omega)
    unfold styleExtractEndpoint
    rw [hm]

/-- Witness for the amended C2 at a single well-formed JPEG upload. -/
theorem c2_amended_count_bounds_witness :
    ∃ p, styleExtractEndpoint (fun _ => none) [⟨"a.jpg", "image/jpeg", 100⟩] none
        (fun _ => .ok (7, "sp")) "NOW" = .ok p ∧
      p.processedImages = 1 ∧
      p.images.length + p.errors.length = 1 :=
  (c2_amended_count_bounds (fun _ => none) [⟨"a.jpg", "image/jpeg", 100⟩] none
      (fun _ => .ok (7, "sp")) "NOW" (by decide)).1 (by decide) (by decide)

/-- Claim C9: every profile produced by the extraction endpoint satisfies
images.length = processedImages - errors.length, its image indexes are
pairwise distinct and lie below processedImages, and every per-image
failure is recorded in errors at its index without aborting the rest. -/
theorem c9_profile_invariants (jparse : String → Option Json) (files : List UploadedFile)
    (pname : Option String) (extract : Nat → Except String (Int × String)) (now : String)
    (p : StyleProfile) (h : styleExtractEndpoint jparse files pname extract now = .ok p) :
    p.images.length = p.processedImages - p.errors.length ∧
      (p.images.map (fun x => x.imageIndex)).Pairwise (· ≠ ·) ∧
      (∀ x ∈ p.images, x.imageIndex < p.processedImages) ∧
      (∀ j msg, j < p.processedImages → extract j = .error msg →
        (⟨j, msg⟩ : ImageError) ∈ p.errors) := by
  unfold styleExtractEndpoint at h
  cases hm : multerStage files 0 with
  | error e => rw [hm] at h; cases h
  | ok u =>
    rw [hm] at h
    dsimp only at h
    by_cases h0 : files.length = 0
    · rw [if_pos h0] at h; cases h
    rw [if_neg h0] at h
    by_cases hlt : files.length < 1
    · rw [if_pos hlt] at h; cases h
    rw [if_neg hlt] at h
    by_cases hgt : files.length > 20
    · rw [if_pos hgt] at h; cases h
    rw [if_neg hgt] at h
    cases hv : validateBuffers files 0 with
    | error e => rw [hv] at h; cases h
    | ok u2 =>
      rw [hv] at h
      dsimp only at h
      injection h with h
      subst h
      refine ⟨?_, ?_, ?_, ?_⟩
      · have hlen := processImagesGo_length extract files.length 0
        dsimp only
        simp only [processImages]
        omega
      · exact List.Pairwise.imp Nat.ne_of_lt (processImagesGo_sorted extract files.length 0)
      · intro x hx
        dsimp only at hx ⊢
        simp only [processImages] at hx
        have := (processImagesGo_img_facts extract files.length 0 x hx).2.1
        omega
      · intro j msg hj hx
        dsimp only at hj ⊢
        simp only [processImages]
        exact processImagesGo_err_complete extract files.length 0 j msg (by omega)
          (by omega) hx

/-- Witness for C9: the spec scenario of three images where the remote
service fails on the second, applied to the concrete profile the endpoint
produces there. -/
theorem c9_profile_invariants_witness :
    (let p0 : StyleProfile :=
      { name := "Custom Style Profile", createdAt := "NOW",
        images := [⟨7, "sp", 0⟩, ⟨7, "sp", 2⟩], processedImages := 3,
        errors := [⟨1, "boom"⟩] };
     p0.images.length = p0.processedImages - p0.errors.length ∧
       (p0.images.map (fun x => x.imageIndex)).Pairwise (· ≠ ·) ∧
       (∀ x ∈ p0.images, x.imageIndex < p0.processedImages) ∧
       (∀ j msg, j < p0.processedImages →
         (fun i : Nat => if i = 1 then Except.error "boom" else Except.ok ((7 : Int), "sp")) j =
           .error msg →
         (⟨j, msg⟩ : ImageError) ∈ p0.errors)) :=
  c9_profile_invariants (fun _ => none)
    [⟨"a.jpg", "image/jpeg", 100⟩, ⟨"b.jpg", "image/jpeg", 100⟩, ⟨"c.jpg", "image/jpeg", 100⟩]
    none (fun i : Nat => if i = 1 then Except.error "boom" else Except.ok ((7 : Int), "sp")) "NOW"
    { name := "Custom Style Profile", createdAt := "NOW",
      images := [⟨7, "sp", 0⟩, ⟨7, "sp", 2⟩], processedImages := 3,
      errors := [⟨1, "boom"⟩] } rfl

end BriaFibo
